import Mathlib

/-!
Verification development for the whatsapp-web-api-rest repository.

The definitions below are a shallow embedding of the TypeScript sources:
  - src/tools.ts                      (the `is` / `to` coercion helpers)
  - src/app/webhook/webhook.service.ts (the subscriber registry)
  - src/app/whatsapp/whatsapp.service.ts (session manager, inbound
    pipeline, outbound send)
JavaScript numbers relevant to the claims are integral, so they are
modelled as `Int`/`Nat`; nullable / optional JS values are `Option`;
JS objects that the code only tests with `is.object` (non-null object
with at least one key) are modelled as `Option` of a record whose
fields carry the already-coerced values.  External library primitives
(the transport's JID classifiers, `String.prototype.trim`, regex
replacement of a single character class) are embedded with their
documented semantics over character lists so that everything evaluates.
-/

namespace WhatsAppRest

/-- JS whitespace test used by `String.prototype.trim`. -/
def isJsSpace (c : Char) : Bool := c = ' ' || c = '\t' || c = '\n' || c = '\r'

/-- Embedding of JS `String.prototype.trim` (both ends). -/
def jsTrim (s : String) : String :=
  String.mk (((s.data.dropWhile isJsSpace).reverse.dropWhile isJsSpace).reverse)

/-- Embedding of JS `String.prototype.toLowerCase` on the ASCII range. -/
def strToLower (s : String) : String := String.mk (s.data.map Char.toLower)

/-- Embedding of JS `String.prototype.endsWith`. -/
def strEndsWith (s sfx : String) : Bool := sfx.data.isSuffixOf s.data

/-- Embedding of JS `String.prototype.startsWith`. -/
def strStartsWith (s pre : String) : Bool := pre.data.isPrefixOf s.data

/-- Embedding of JS `String.prototype.includes`. -/
def strContainsSub (hay needle : String) : Bool :=
  hay.data.tails.any (fun t => needle.data.isPrefixOf t)

/-- Embedding of a JS global single-character regex replacement with the
empty string, i.e. `s.replace(/c/g, '')`: every occurrence is removed. -/
def removeAllChar (c : Char) (s : String) : String :=
  String.mk (s.data.filter (fun a => a != c))

/-- tools.ts `to.string` applied to a possibly-absent string value:
strings pass through, nullish becomes the empty string. -/
def jsToString : Option String → String
  | some s => s
  | none => ""

/-- tools.ts `to.undefined` applied to a possibly-absent string value:
the empty string (and absence) becomes `undefined`. -/
def toUndefined : Option String → Option String
  | some s => if s = "" then none else some s
  | none => none

/-- JS nullish coalescing `a ?? b` on optional values. -/
def jsCoalesce {α : Type} : Option α → Option α → Option α
  | some v, _ => some v
  | none, b => b

/-! ## Webhook registry (src/app/webhook/webhook.service.ts)

The registry state is the ordered list of URLs returned by `get()`
(the newline-delimited backing file with empty lines filtered out). -/

namespace WebhookService

/-- `insert(url)`: trim, no-op on empty or duplicate, else append. -/
def insert (data : List String) (url : String) : List String :=
  let normalized := jsTrim url
  if normalized = "" then data
  else if normalized ∈ data then data
  else data ++ [normalized]

/-- `delete(index)`: `none` models the thrown `NotFoundException` when the
index is out of `[0, length)`; otherwise `splice(index, 1)` removes the
entry at that position. -/
def delete (strings : List String) (index : Int) : Option (List String) :=
  if index < 0 || (strings.length : Int) ≤ index then none
  else some (strings.eraseIdx index.toNat)

end WebhookService

/-! ## Message timestamps (whatsapp.service.ts)

`messageTimestamp` arrives as a JS value: a number, a string, a
Long-like object, `null` or absent.  The string branch goes through
`Number(value)` and the object branch through `toNumber()` /
`Number(toString())`; those numeric parses are external JS builtins, so
the embedding carries their (integral, finite) results directly:
`str none` is a string that parses to `NaN`/infinite, `str (some n)` a
string parsing to the finite number `n`; `obj tn ts` is an object whose
`toNumber()` yields the finite number `tn` (or nothing of the sort) and
whose `toString()` parses to the finite number `ts` (or not). -/

inductive TsValue where
  | undef : TsValue
  | null : TsValue
  | num (n : Int) : TsValue
  | str (parsed : Option Int) : TsValue
  | obj (toNumber : Option Int) (toStringNum : Option Int) : TsValue
deriving DecidableEq

/-- `getMessageTimestampMs` of whatsapp.service.ts, lines 825-845. -/
def getMessageTimestampMs : TsValue → Int
  | .undef => 0
  | .null => 0
  | .num n => if n > 1000000000000 then n else n * 1000
  | .str parsed =>
      match parsed with
      | none => 0
      | some n => if n ≤ 0 then 0 else if n > 1000000000000 then n else n * 1000
  | .obj tn ts =>
      match tn with
      | some n => if n > 1000000000000 then n else n * 1000
      | none =>
          match ts with
          | some n => if n > 0 then (if n > 1000000000000 then n else n * 1000) else 0
          | none => 0

/-- `maxWebhookMessageAgeMs` (whatsapp.service.ts line 34). -/
def maxWebhookMessageAgeMs : Int := 60000

/-- `isMessageOlderThanMaxAge` (lines 801-805); `now` is `Date.now()`. -/
def isMessageOlderThanMaxAge (now : Int) (t : TsValue) : Bool :=
  let timestampMs := getMessageTimestampMs t
  if timestampMs = 0 then false
  else decide (now - timestampMs > maxWebhookMessageAgeMs)

/-! ## Inbound messages (whatsapp.service.ts)

A raw inbound item from the transport.  `body` is `item.message` (absent
models a falsy value); the key fields arrive through `to.string` /
`to.boolean` so they are already plain strings / booleans here. -/

/-- A `contextInfo` object of a message container (may lack `stanzaId`). -/
structure CtxInfo where
  stanzaId : Option String
deriving DecidableEq

/-- One media container (`imageMessage`, `videoMessage`, ...). -/
structure MediaPart where
  mimetype : Option String
  caption : Option String
  contextInfo : Option CtxInfo
deriving DecidableEq

/-- The `item.message` object: text fields and media containers.
`docWithCaptionDoc` is `documentWithCaptionMessage?.message?.documentMessage`. -/
structure MsgBody where
  conversation : Option String
  extendedTextText : Option String
  extendedTextCtx : Option CtxInfo
  imageMessage : Option MediaPart
  videoMessage : Option MediaPart
  audioMessage : Option MediaPart
  documentMessage : Option MediaPart
  docWithCaptionDoc : Option MediaPart
  stickerCtx : Option CtxInfo
deriving DecidableEq

/-- One element of a `messages.upsert` batch. -/
structure InMsg where
  body : Option MsgBody
  remoteJid : String
  participant : String
  msgId : String
  fromMe : Bool
  messageTimestamp : TsValue
deriving DecidableEq

/-- Transport-library JID classifier: broadcast addresses end in
`@broadcast` (external `isJidBroadcast` from the transport library). -/
def isJidBroadcast (jid : String) : Bool := strEndsWith jid "@broadcast"

/-- Transport-library JID classifier: the status broadcast JID
(external `isJidStatusBroadcast`). -/
def isJidStatusBroadcast (jid : String) : Bool := jid = "status@broadcast"

/-- Transport-library JID classifier: newsletter addresses end in
`@newsletter` (external `isJidNewsletter`). -/
def isJidNewsletter (jid : String) : Bool := strEndsWith jid "@newsletter"

/-- `getMediaMimeType` (lines 733-739): first defined mimetype in the
order image, audio, video, document, caption-wrapped document. -/
def getMediaMimeType (b : MsgBody) : String :=
  jsToString
    (jsCoalesce (b.imageMessage.bind (fun x => x.mimetype))
      (jsCoalesce (b.audioMessage.bind (fun x => x.mimetype))
        (jsCoalesce (b.videoMessage.bind (fun x => x.mimetype))
          (jsCoalesce (b.documentMessage.bind (fun x => x.mimetype))
            (b.docWithCaptionDoc.bind (fun x => x.mimetype))))))

/-- `getMediaCaption` (lines 741-747), same lookup order as the mimetype. -/
def getMediaCaption (b : MsgBody) : String :=
  jsToString
    (jsCoalesce (b.imageMessage.bind (fun x => x.caption))
      (jsCoalesce (b.audioMessage.bind (fun x => x.caption))
        (jsCoalesce (b.videoMessage.bind (fun x => x.caption))
          (jsCoalesce (b.documentMessage.bind (fun x => x.caption))
            (b.docWithCaptionDoc.bind (fun x => x.caption))))))

/-- `getMediaType` (lines 749-769): container presence decides the kind,
otherwise the kind is derived from the MIME prefix, else `unknown`. -/
def getMediaType (b : MsgBody) : String :=
  if b.imageMessage.isSome then "image"
  else if b.videoMessage.isSome then "video"
  else if b.audioMessage.isSome then "audio"
  else if b.documentMessage.isSome then "document"
  else if b.docWithCaptionDoc.isSome then "document"
  else
    let mimetype :=
      jsToString
        (jsCoalesce (b.imageMessage.bind (fun x => x.mimetype))
          (jsCoalesce (b.videoMessage.bind (fun x => x.mimetype))
            (jsCoalesce (b.audioMessage.bind (fun x => x.mimetype))
              (jsCoalesce (b.documentMessage.bind (fun x => x.mimetype))
                (b.docWithCaptionDoc.bind (fun x => x.mimetype))))))
    if strStartsWith mimetype "image/" then "image"
    else if strStartsWith mimetype "video/" then "video"
    else if strStartsWith mimetype "audio/" then "audio"
    else if strStartsWith mimetype "application/" then "document"
    else "unknown"

/-- `getReplyId` (lines 771-782): first present `contextInfo` in the
order extended-text, image, video, document, audio, sticker; then its
`stanzaId` through `to.string`. -/
def getReplyId (b : MsgBody) : String :=
  jsToString
    ((jsCoalesce b.extendedTextCtx
      (jsCoalesce (b.imageMessage.bind (fun x => x.contextInfo))
        (jsCoalesce (b.videoMessage.bind (fun x => x.contextInfo))
          (jsCoalesce (b.documentMessage.bind (fun x => x.contextInfo))
            (jsCoalesce (b.audioMessage.bind (fun x => x.contextInfo))
              b.stickerCtx))))).bind (fun c => c.stanzaId))

/-- `isAuthorizedMessage` (lines 816-823); `auth` models the lower-cased
`authorizedWhatsAppIds` set. -/
def isAuthorizedMessage (auth : List String) (m : InMsg) : Bool :=
  if auth.length = 0 then true
  else
    let fromJid := strToLower m.remoteJid
    let participant := strToLower m.participant
    if fromJid != "" && auth.contains fromJid then true
    else if participant != "" && auth.contains participant then true
    else false

/-- The payload POSTed to each webhook for one surviving message
(lines 332-347).  The audio variant's base64 body comes from an
external media download and is not part of the embedding. -/
inductive WebhookPayload where
  | textPayload (fromJid message : String) (replyId : Option String)
  | audioPayload (fromJid mimeType caption : String) (replyId : Option String)
deriving DecidableEq

/-- What the batch loop does with one message: drop it and keep going
(`continue` / falsy body), abort the whole remaining batch (`return`),
or dispatch it to the webhooks. -/
inductive MsgStep where
  | abortBatch
  | skip
  | dispatch (p : WebhookPayload)
deriving DecidableEq

/-- The per-message decision of the `onMessageUpsert` loop body
(lines 297-347), in source order: falsy `item.message` skips; a
broadcast / status-broadcast / newsletter origin `return`s (aborting the
batch); `fromMe`, unauthorized and stale messages `continue`; the body
is classified and non-text/non-audio kinds `continue`; otherwise the
webhook payload is built. -/
def classifyMessage (auth : List String) (now : Int) (m : InMsg) : MsgStep :=
  match m.body with
  | none => .skip
  | some b =>
      let fromJid := m.remoteJid
      if isJidStatusBroadcast fromJid || isJidNewsletter fromJid || isJidBroadcast fromJid then
        .abortBatch
      else if m.fromMe then .skip
      else if !(isAuthorizedMessage auth m) then .skip
      else if isMessageOlderThanMaxAge now m.messageTimestamp then .skip
      else
        let message0 := jsToString b.conversation
        let message := if message0 = "" then jsToString b.extendedTextText else message0
        let mimeType := getMediaMimeType b
        let mtype := if mimeType = "" then "text" else getMediaType b
        if mtype != "text" && mtype != "audio" then .skip
        else
          let replyId := getReplyId b
          let rid : Option String := if replyId = "" then none else some replyId
          if mtype = "audio" then .dispatch (.audioPayload fromJid mimeType (getMediaCaption b) rid)
          else .dispatch (.textPayload fromJid message rid)

/-- The `for (const item of messages)` loop of `onMessageUpsert`:
collects the dispatched payloads in order; `abortBatch` ends the loop
(and the batch) immediately. -/
def processBatch (auth : List String) (now : Int) : List InMsg → List WebhookPayload
  | [] => []
  | m :: rest =>
      match classifyMessage auth now m with
      | .abortBatch => []
      | .skip => processBatch auth now rest
      | .dispatch p => p :: processBatch auth now rest

/-- `onMessageUpsert` (lines 290-393): the loop only runs when the
`messages` field and the webhook list both pass `is.array`
(non-empty). -/
def onMessageUpsert (webhooks auth : List String) (now : Int) (msgs : List InMsg) :
    List WebhookPayload :=
  if msgs.length > 0 && webhooks.length > 0 then processBatch auth now msgs else []

/-! ## Outbound content (whatsapp.service.ts `buildMessageContent`)

An `IMessage` request.  For the `media` / `location` / `poll` /
`contact` fields, `some` means the raw JS value passed `is.object`
(a non-null object with at least one key); the record fields carry the
`to.string`-coerced values the code reads off them. -/

structure MediaIn where
  type : String
  data : String
  caption : Option String
  mimetype : Option String
  filename : Option String
  ptt : Option String
  gifPlayback : Option String
deriving DecidableEq

structure LocationIn where
  name : Option String
  url : Option String
  address : Option String
  latitude : Option Int
  longitude : Option Int
deriving DecidableEq

structure PollIn where
  name : Option String
  options : List String
  allowMultipleAnswers : Option Nat
deriving DecidableEq

structure ContactIn where
  firstname : String
  lastname : String
  email : String
  phone : String
deriving DecidableEq

structure IMessage where
  chatId : String
  text : Option String
  media : Option MediaIn
  location : Option LocationIn
  poll : Option PollIn
  contact : Option ContactIn
deriving DecidableEq

/-- The content object handed to the transport's `sendMessage`; one
constructor per object literal shape built by `buildMessageContent`
(the decoded media buffer itself is external and not carried). -/
inductive MessageContent where
  | textContent (text : Option String)
  | mediaContent (typeFile data : String)
      (caption mimetype fileName ptt gifPlayback : Option String)
  | locationContent (name url address : Option String)
      (degreesLatitude degreesLongitude : Option Int)
  | pollContent (name : Option String) (values : List String) (selectableCount : Nat)
  | contactContent (displayName vcard : String)
deriving DecidableEq

/-- The vCard template of the contact branch (lines 482-488). -/
def vcardOf (displayName email phone : String) : String :=
  "BEGIN:VCARD\n" ++ "VERSION:3.0\n" ++
  "FN:" ++ displayName ++ "\n" ++
  "EMAIL;TYPE=Work:" ++ email ++ "\n" ++
  "TEL;type=CELL;type=VOICE;waid=" ++ phone ++ ":" ++ phone ++ "\n" ++
  "END:VCARD"

/-- `buildMessageContent` (lines 439-499): `content` starts as `{ text }`
and is replaced by the first `is.object` branch that matches in the
order media, location, poll, contact; a media object without both a
non-empty type and non-empty base64 data leaves `{ text }` in place
(it does not fall through to the later branches). -/
def buildMessageContent (p : IMessage) : MessageContent :=
  match p.media with
  | some m =>
      if m.type != "" && m.data != "" then
        .mediaContent m.type m.data (toUndefined m.caption) (toUndefined m.mimetype)
          (toUndefined m.filename) (toUndefined m.ptt) (toUndefined m.gifPlayback)
      else .textContent p.text
  | none =>
      match p.location with
      | some l => .locationContent l.name l.url l.address l.latitude l.longitude
      | none =>
          match p.poll with
          | some q =>
              .pollContent q.name q.options
                (match q.allowMultipleAnswers with
                 | none => 0
                 | some n => n)
          | none =>
              match p.contact with
              | some c =>
                  let displayName := c.firstname ++ " " ++ c.lastname
                  let phone := removeAllChar '+' (removeAllChar ' ' c.phone)
                  .contactContent displayName (vcardOf displayName c.email phone)
              | none => .textContent p.text

/-- Number of keys of the JS object literal each content shape denotes
(`{ text }` keeps its key even when the value is `undefined`; the media
literal has the computed buffer key plus five fixed keys). -/
def contentKeyCount : MessageContent → Nat
  | .textContent _ => 1
  | .mediaContent _ _ _ _ _ _ _ => 6
  | .locationContent _ _ _ _ _ => 1
  | .pollContent _ _ _ => 1
  | .contactContent _ _ => 1

/-- `is.object` applied to the built content object. -/
def isObjectContent (c : MessageContent) : Bool := contentKeyCount c > 0

/-! ## Outbound send (whatsapp.service.ts `sendMessage`)

The transport transmit and `ensureConnected` are external effects; the
environment fixes their outcomes for one `sendMessage` call: the
connection state seen on entry, whether a client exists after an
`ensureConnected` call, and the outcome of the first and second
transmit attempts. -/

inductive Transmit where
  | ok (r : Nat)
  | err (msg : String)
deriving DecidableEq

structure SendEnv where
  hasClient : Bool
  isConnected : Bool
  hasClientAfterEnsure : Bool
  first : Transmit
  second : Transmit
deriving DecidableEq

/-- Observable trace of one `sendMessage` call: the returned value
(`none` is the empty-object result), how many times `ensureConnected`
was invoked, and how many transmit attempts were made. -/
structure SendTrace where
  result : Option Nat
  ensureCalls : Nat
  attempts : Nat
deriving DecidableEq

/-- `isConnectionClosedError` (lines 434-437). -/
def isConnectionClosedError (msg : String) : Bool :=
  let m := strToLower msg
  strContainsSub m "connection closed" || strContainsSub m "not connected"

/-- `sendMessage` (lines 409-432).  `ensureConnected` never throws in the
source (it catches internally), so it is modelled as a plain effect. -/
def sendMessage (env : SendEnv) (p : IMessage) : SendTrace :=
  let chatId := p.chatId
  let content := buildMessageContent p
  if chatId = "" || !(isObjectContent content) then ⟨none, 0, 0⟩
  else
    let preEnsure := !env.hasClient || !env.isConnected
    let ensure0 := if preEnsure then 1 else 0
    let hasClient1 := if preEnsure then env.hasClientAfterEnsure else env.hasClient
    if !hasClient1 then ⟨none, ensure0, 0⟩
    else
      match env.first with
      | .ok r => ⟨some r, ensure0, 1⟩
      | .err m =>
          if isConnectionClosedError m then
            if env.hasClientAfterEnsure && chatId != "" && isObjectContent content then
              match env.second with
              | .ok r => ⟨some r, ensure0 + 1, 2⟩
              | .err _ => ⟨none, ensure0 + 1, 2⟩
            else ⟨none, ensure0 + 1, 1⟩
          else ⟨none, ensure0, 1⟩

/-! ## Session connection manager (whatsapp.service.ts)

State of the `WhatsappService` fields the claims are about.  A client
handle is its generation number (`clientCounter` value at creation);
`reconnectTimeout` records whether a reconnect is scheduled.  The
transitions model one linearized execution of the corresponding async
method (each `await` completing in order). -/

structure WAState where
  client : Option Nat
  isConnected : Bool
  reconnectCount : Nat
  reconnectTimeout : Bool
  suppressReconnect : Bool
  refreshInProgress : Bool
  clientCounter : Nat
  currentClientId : Option Nat
deriving DecidableEq

/-- `reconnectBackoffMs` (line 90). -/
def reconnectBackoffMs : List Int := [1000, 2000, 2500, 3000, 4000]

/-- `maxConnectionAttemps` (line 91, source spelling). -/
def maxConnectionAttemps : Nat := reconnectBackoffMs.length

/-- `safeCloseClient` (lines 628-644): best-effort close, then the
handle reference, connected flag and current id are cleared. -/
def safeCloseClient (s : WAState) : WAState :=
  if s.client.isNone then s
  else { s with client := none, isConnected := false, currentClientId := none }

/-- `start` (lines 106-173): no-op while a refresh is in progress;
no-op when already connected with a client; otherwise a disconnected
client is closed first and a fresh handle with the next generation id
is created and wired up.  (The in-flight `startPromise` join is a
concurrency device and is not part of this sequential model.) -/
def start (s : WAState) : WAState :=
  if s.refreshInProgress then s
  else if s.isConnected && s.client.isSome then s
  else
    let s1 := if s.client.isSome && !s.isConnected then safeCloseClient s else s
    let cid := s1.clientCounter + 1
    { s1 with clientCounter := cid, currentClientId := some cid, client := some cid }

/-- `forceRefreshConnection` (lines 237-265): reject overlap, set the
refresh/suppression flags, cancel a pending reconnect, close the
client; then (finally) clear the connected flag and counter, wait,
invoke `start()`, and clear both flags. -/
def forceRefreshConnection (s : WAState) : WAState :=
  if s.client.isNone then s
  else if s.refreshInProgress then s
  else
    let s1 := { s with refreshInProgress := true, suppressReconnect := true,
                       reconnectTimeout := false }
    let s2 := safeCloseClient s1
    let s3 := { s2 with isConnected := false, reconnectCount := 0 }
    let s4 := start s3
    { s4 with suppressReconnect := false, refreshInProgress := false }

/-- One `connection.update` event as the handler sees it: the generation
id the listener was registered with, the `connection` field, and the
disconnect error's status code / message. -/
structure ConnUpdate where
  clientId : Option Nat
  connection : Option String
  statusCode : Option Int
  errMessage : String
  qr : Option String
deriving DecidableEq

/-- The stale-client guard of `onConnectionUpdate` (lines 183-185):
discard only when the event carries an id, a current id exists, and
they differ. -/
def staleUpdate (s : WAState) (u : ConnUpdate) : Bool :=
  match u.clientId, s.currentClientId with
  | some g, some g' => g != g'
  | _, _ => false

/-- The transport library's `DisconnectReason.loggedOut` status code. -/
def loggedOut : Int := 401

/-- The terminal QR-failure close message tested at line 204. -/
def qrEndedMsg : String := "QR refs attempts ended"

/-- The `shouldReconnect` condition of line 204. -/
def shouldReconnect (s : WAState) (u : ConnUpdate) : Bool :=
  (u.statusCode != some loggedOut) && (u.errMessage != qrEndedMsg) &&
    (s.reconnectCount < maxConnectionAttemps)

/-- `onConnectionUpdate` (lines 178-235): returns the successor state
and the backoff delay of a newly scheduled reconnect (if any). -/
def onConnectionUpdate (s : WAState) (u : ConnUpdate) : WAState × Option Int :=
  if staleUpdate s u then (s, none)
  else if u.connection = some "close" then
    if s.suppressReconnect then ({ s with isConnected := false }, none)
    else if shouldReconnect s u then
      let n := s.reconnectCount + 1
      let d := reconnectBackoffMs.getD (n - 1) 4000
      ({ s with reconnectCount := n, reconnectTimeout := true }, some d)
    else ({ s with reconnectCount := 0, isConnected := false }, none)
  else if u.connection = some "open" then
    ({ s with reconnectCount := 0, isConnected := true, reconnectTimeout := false }, none)
  else (s, none)

/-! ## Event dispatch across generations

The handlers wired in `start` (lines 161-165): only the
`connection.update` listener closes over the generation id it was
registered with; `messages.upsert` and `call` are bound directly, so a
batch or call event delivered by a superseded handle reaches the same
handler with no generation information at all.  `origin` records which
handle's emitter fired the event. -/

inductive WAEvent where
  | connUpdate (u : ConnUpdate)
  | messageBatch (origin : Nat) (msgs : List InMsg)
  | callEvent (origin : Nat)
deriving DecidableEq

/-- The generation a delivered event belongs to. -/
def eventOrigin : WAEvent → Option Nat
  | .connUpdate u => u.clientId
  | .messageBatch g _ => some g
  | .callEvent g => some g

/-- Everything observable from handling one event: the successor session
state, a newly scheduled reconnect delay, the webhook payloads
dispatched, and whether a `{call}` notification went out. -/
structure EventOutcome where
  state : WAState
  scheduledDelay : Option Int
  dispatched : List WebhookPayload
  callForwarded : Bool
deriving DecidableEq

/-- Dispatch of one delivered event to the handlers registered by
`start`: `connection.update` runs `onConnectionUpdate`;
`messages.upsert` runs the batch pipeline; `call` rejects the call and
forwards `{call}` when the webhook list passes `is.array`. -/
def dispatchEvent (s : WAState) (now : Int) (auth webhooks : List String)
    (e : WAEvent) : EventOutcome :=
  match e with
  | .connUpdate u =>
      let r := onConnectionUpdate s u
      ⟨r.1, r.2, [], false⟩
  | .messageBatch _ msgs => ⟨s, none, onMessageUpsert webhooks auth now msgs, false⟩
  | .callEvent _ => ⟨s, none, [], webhooks.length > 0⟩

/-! ## Theorems -/

/-- C8: in the webhook registry, `insert` trims first, no-ops on an
empty or already-present trimmed URL (so inserting the same URL twice
leaves exactly one entry and insert is idempotent), and otherwise
appends at the end preserving registration order; `delete(index)`
signals not-found exactly when the index is outside `[0, length)` and
otherwise removes exactly the entry at that position, leaving the
relative order of the remaining entries unchanged. -/
theorem webhook_registry_insert_delete (d : List String) (u : String) (i : Int) :
    (jsTrim u = "" → WebhookService.insert d u = d)
    ∧ (jsTrim u ∈ d → WebhookService.insert d u = d)
    ∧ (jsTrim u ≠ "" → jsTrim u ∉ d → WebhookService.insert d u = d ++ [jsTrim u])
    ∧ WebhookService.insert (WebhookService.insert d u) u = WebhookService.insert d u
    ∧ (jsTrim u ≠ "" → jsTrim u ∉ d →
        (WebhookService.insert (WebhookService.insert d u) u).count (jsTrim u) = 1)
    ∧ ((WebhookService.delete d i).isSome ↔ 0 ≤ i ∧ i < (d.length : Int))
    ∧ (0 ≤ i → i < (d.length : Int) →
        WebhookService.delete d i = some (d.take i.toNat ++ d.drop (i.toNat + 1))) := by
  refine ⟨?_, ?_, ?_, ?_, ?_, ?_, ?_⟩
  · intro h; simp [WebhookService.insert, h]
  · intro h
    by_cases h0 : jsTrim u = "" <;> simp [WebhookService.insert, h, h0]
  · intro h0 h1; simp [WebhookService.insert, h0, h1]
  · by_cases h0 : jsTrim u = ""
    · simp [WebhookService.insert, h0]
    · by_cases h1 : jsTrim u ∈ d
      · simp [WebhookService.insert, h0, h1]
      · simp [WebhookService.insert, h0, h1]
  · intro h0 h1
    have h2 : WebhookService.insert d u = d ++ [jsTrim u] := by
      simp [WebhookService.insert, h0, h1]
    have h3 : jsTrim u ∈ d ++ [jsTrim u] := by simp
    rw [h2]
    simp [WebhookService.insert, h0, h3, List.count_append,
      List.count_eq_zero.mpr h1]
  · constructor
    · intro h
      by_cases hb : i < 0 ∨ (d.length : Int) ≤ i
      · rcases hb with hb | hb <;> simp [WebhookService.delete, hb] at h
      · push_neg at hb; omega
    · intro ⟨h0, h1⟩
      have : ¬(i < 0 || (d.length : Int) ≤ i) = true := by simp; omega
      simp [WebhookService.delete]
      omega
  · intro h0 h1
    have hn : i.toNat < d.length := by omega
    simp [WebhookService.delete, List.eraseIdx_eq_take_drop_succ]
    omega

/-- C8 witness: a concrete insert and delete. -/
theorem webhook_registry_witness :
    WebhookService.insert ["https://a"] " https://b " = ["https://a", "https://b"]
    ∧ WebhookService.delete ["https://a", "https://b"] 1 = some ["https://a"] := by
  constructor
  · exact (webhook_registry_insert_delete ["https://a"] " https://b " 0).2.2.1
      (by decide) (by decide)
  · have h := (webhook_registry_insert_delete ["https://a", "https://b"] "x" 1).2.2.2.2.2.2
      (by decide) (by decide)
    simpa using h

/-- Modelled from the spec: the spec's numeric-timestamp interpretation,
"treat values below 10^12 as seconds" (so 10^12 or more is taken as
milliseconds), for comparison with `getMessageTimestampMs`. -/
def specNumericTimestampMs (n : Int) : Int :=
  if n < 1000000000000 then n * 1000 else n

/-- C5 counterexample: a numeric timestamp of exactly 10^12 is
interpreted by the code as seconds (multiplied by 1000), not as
milliseconds as the claim states; under the claim's interpretation a
message timestamped 10^12 ms observed 100000 ms later is stale, but
the code does not drop it. -/
theorem staleness_boundary_counterexample :
    getMessageTimestampMs (.num 1000000000000) = 1000000000000000
    ∧ getMessageTimestampMs (.num 1000000000000) ≠ 1000000000000
    ∧ isMessageOlderThanMaxAge (1000000000000 + 100000) (.num 1000000000000) = false
    ∧ specNumericTimestampMs 1000000000000 = 1000000000000
    ∧ 60000 < (1000000000000 + 100000) - specNumericTimestampMs 1000000000000 := by
  refine ⟨by decide, by decide, by decide, by decide, by decide⟩

/-- C5 (amended): for a millisecond-range numeric timestamp (strictly
above 10^12) the staleness filter drops the message exactly when its
age strictly exceeds 60000 ms — an age of 61000 ms is dropped, 60000
and 59000 ms are not — and a numeric value is interpreted as seconds
(multiplied by 1000) when it is at most 10^12 and as milliseconds when
it is strictly above 10^12. -/
theorem staleness_boundary (now v : Int) (hv : 1000000000000 < v) :
    (isMessageOlderThanMaxAge now (.num v) = true ↔ 60000 < now - v)
    ∧ isMessageOlderThanMaxAge (v + 61000) (.num v) = true
    ∧ isMessageOlderThanMaxAge (v + 60000) (.num v) = false
    ∧ isMessageOlderThanMaxAge (v + 59000) (.num v) = false
    ∧ (∀ n : Int, n ≤ 1000000000000 → getMessageTimestampMs (.num n) = n * 1000)
    ∧ (∀ n : Int, 1000000000000 < n → getMessageTimestampMs (.num n) = n) := by
  have hv0 : v ≠ 0 := by omega
  have hts : getMessageTimestampMs (.num v) = v := by
    simp [getMessageTimestampMs]
    omega
  refine ⟨?_, ?_, ?_, ?_, ?_, ?_⟩
  · simp [isMessageOlderThanMaxAge, hts, hv0, maxWebhookMessageAgeMs]
  · simp [isMessageOlderThanMaxAge, hts, hv0, maxWebhookMessageAgeMs]
  · simp [isMessageOlderThanMaxAge, hts, hv0, maxWebhookMessageAgeMs]
  · simp [isMessageOlderThanMaxAge, hts, hv0, maxWebhookMessageAgeMs]
  · intro n hn
    have : ¬(n > 1000000000000) := by omega
    simp [getMessageTimestampMs, this]
  · intro n hn
    simp [getMessageTimestampMs]
    omega

/-- C5 witness: the boundary behavior at a concrete millisecond
timestamp. -/
theorem staleness_boundary_witness :
    isMessageOlderThanMaxAge (1000000000001 + 61000) (.num 1000000000001) = true
    ∧ isMessageOlderThanMaxAge (1000000000001 + 60000) (.num 1000000000001) = false := by
  have h := staleness_boundary 0 1000000000001 (by omega)
  exact ⟨h.2.1, h.2.2.1⟩

/-- C10 counterexample: a raw numeric timestamp of −1 cannot be resolved
to a positive finite number, yet the resolver maps it to −1000 (not 0)
and the filter classifies the message as stale, so the message is
dropped — in the pipeline the classification is `skip`. -/
theorem zero_timestamp_counterexample :
    getMessageTimestampMs (.num (-1)) = -1000
    ∧ getMessageTimestampMs (.num (-1)) ≠ 0
    ∧ isMessageOlderThanMaxAge 100000 (.num (-1)) = true
    ∧ classifyMessage [] 100000
        ⟨some ⟨some "hello", none, none, none, none, none, none, none, none⟩,
          "1@s.whatsapp.net", "", "M1", false, .num (-1)⟩ = .skip := by
  refine ⟨by decide, by decide, by decide, by decide⟩

/-- C10 (amended): whenever the timestamp resolver yields 0 the
staleness filter classifies the message as not stale, so it is never
dropped for age; the resolver yields 0 for an absent or null
timestamp, a string that does not parse to a positive finite number,
and an object with neither a finite `toNumber` nor a positive numeric
`toString` — but a raw numeric value is converted without a positivity
check, so only the listed shapes are guaranteed to resolve to 0.  A
message whose timestamp resolves to 0 is classified identically at
every observation time. -/
theorem zero_timestamp_never_stale (now now2 : Int) (auth : List String)
    (m : InMsg) (t : TsValue) :
    (getMessageTimestampMs t = 0 → isMessageOlderThanMaxAge now t = false)
    ∧ getMessageTimestampMs .undef = 0
    ∧ getMessageTimestampMs .null = 0
    ∧ getMessageTimestampMs (.str none) = 0
    ∧ (∀ n : Int, n ≤ 0 → getMessageTimestampMs (.str (some n)) = 0)
    ∧ getMessageTimestampMs (.obj none none) = 0
    ∧ (∀ n : Int, n ≤ 0 → getMessageTimestampMs (.obj none (some n)) = 0)
    ∧ (getMessageTimestampMs m.messageTimestamp = 0 →
        classifyMessage auth now m = classifyMessage auth now2 m) := by
  refine ⟨?_, by decide, by decide, by decide, ?_, by decide, ?_, ?_⟩
  · intro h; simp [isMessageOlderThanMaxAge, h]
  · intro n hn
    simp [getMessageTimestampMs]
    omega
  · intro n hn
    have : ¬(n > 0) := by omega
    simp [getMessageTimestampMs, this]
  · intro h
    have h1 : isMessageOlderThanMaxAge now m.messageTimestamp = false := by
      simp [isMessageOlderThanMaxAge, h]
    have h2 : isMessageOlderThanMaxAge now2 m.messageTimestamp = false := by
      simp [isMessageOlderThanMaxAge, h]
    cases hb : m.body with
    | none => simp [classifyMessage, hb]
    | some b => simp [classifyMessage, hb, h1, h2]

/-- C10 witness: a message with an absent timestamp is not dropped for
age at an arbitrarily late observation time. -/
theorem zero_timestamp_witness :
    isMessageOlderThanMaxAge 999999999999999 TsValue.undef = false := by
  exact (zero_timestamp_never_stale 999999999999999 0 []
    ⟨none, "", "", "", false, .undef⟩ .undef).1 (by decide)

/-- Modelled from the spec: the phone transform the claim describes —
all spaces removed, then one leading plus stripped, interior pluses
kept — for comparison with the code's transform. -/
def specContactPhone (s : String) : String :=
  let t := removeAllChar ' ' s
  if strStartsWith t "+" then String.mk (t.data.drop 1) else t

/-- Removing all spaces and then all pluses is one character filter. -/
theorem removeAllChar_space_plus (s : String) :
    removeAllChar '+' (removeAllChar ' ' s) =
      String.mk (s.data.filter (fun a => a != ' ' && a != '+')) := by
  simp only [removeAllChar]
  congr 1
  induction s.data with
  | nil => rfl
  | cons x xs ih =>
      by_cases h1 : x = ' '
      · simp [h1, ih]
      · by_cases h2 : x = '+'
        · simp [h1, h2, ih]
        · simp [h1, h2, ih]

/-- C9 counterexample: for the input phone string `"+1 2+3"` the claim
demands the vCard phone `"12+3"` (spaces removed, only the leading plus
stripped), but the generated vCard carries `"123"` — the interior plus
is removed as well. -/
theorem contact_vcard_phone_counterexample :
    buildMessageContent ⟨"1", none, none, none, none, some ⟨"a", "b", "e", "+1 2+3"⟩⟩ =
      .contactContent "a b" (vcardOf "a b" "e" "123")
    ∧ specContactPhone "+1 2+3" = "12+3"
    ∧ vcardOf "a b" "e" "123" ≠ vcardOf "a b" "e" (specContactPhone "+1 2+3") := by
  refine ⟨by decide, by decide, by decide⟩

/-- C9 (amended): the phone number embedded in the generated vCard is
the input phone string with every space character and every plus
character removed, not only a leading plus. -/
theorem contact_vcard_phone (p : IMessage) (c : ContactIn)
    (hm : p.media = none) (hl : p.location = none) (hq : p.poll = none)
    (hc : p.contact = some c) :
    buildMessageContent p =
      .contactContent (c.firstname ++ " " ++ c.lastname)
        (vcardOf (c.firstname ++ " " ++ c.lastname) c.email
          (String.mk (c.phone.data.filter (fun a => a != ' ' && a != '+')))) := by
  simp [buildMessageContent, hm, hl, hq, hc, removeAllChar_space_plus]

/-- C9 witness: a concrete contact-card build. -/
theorem contact_vcard_phone_witness :
    buildMessageContent ⟨"1", none, none, none, none, some ⟨"a", "b", "e", "+27 11 222"⟩⟩ =
      .contactContent "a b" (vcardOf "a b" "e" "2711222") := by
  have h := contact_vcard_phone
    ⟨"1", none, none, none, none, some ⟨"a", "b", "e", "+27 11 222"⟩⟩
    ⟨"a", "b", "e", "+27 11 222"⟩ rfl rfl rfl rfl
  rw [h]
  decide

/-- C7 counterexample: a request carrying both a media object (with an
empty base64 `data` field) and a well-formed poll object is built as
plain text, not as media content — so it is not the case that such a
request is always built and sent as media. -/
theorem content_precedence_counterexample :
    buildMessageContent ⟨"1", some "t", some ⟨"image", "", none, none, none, none, none⟩,
        none, some ⟨some "p", ["a", "b"], none⟩, none⟩ = .textContent (some "t")
    ∧ (∀ a b c d e f g, MessageContent.textContent (some "t") ≠
        .mediaContent a b c d e f g) := by
  refine ⟨by decide, ?_⟩
  intro a b c d e f g h
  exact MessageContent.noConfusion h

/-- C7 (amended): content shapes are tested in the fixed order media,
location, poll, contact, else plain text, on presence as non-empty
objects; a request containing both a media object and a poll object is
never built as a poll — it is built as media content exactly when the
media object carries a non-empty type and non-empty base64 data, and
falls back to plain text otherwise (not to the poll). -/
theorem content_precedence (p : IMessage) :
    (∀ m q, p.media = some m → p.poll = some q →
        ∀ name values cnt, buildMessageContent p ≠ .pollContent name values cnt)
    ∧ (∀ m, p.media = some m → m.type ≠ "" → m.data ≠ "" →
        buildMessageContent p = .mediaContent m.type m.data (toUndefined m.caption)
          (toUndefined m.mimetype) (toUndefined m.filename) (toUndefined m.ptt)
          (toUndefined m.gifPlayback))
    ∧ (∀ m, p.media = some m → (m.type = "" ∨ m.data = "") →
        buildMessageContent p = .textContent p.text)
    ∧ (p.media = none → ∀ l, p.location = some l →
        buildMessageContent p = .locationContent l.name l.url l.address l.latitude l.longitude)
    ∧ (p.media = none → p.location = none → ∀ q, p.poll = some q →
        buildMessageContent p = .pollContent q.name q.options (q.allowMultipleAnswers.getD 0))
    ∧ (p.media = none → p.location = none → p.poll = none → ∀ c, p.contact = some c →
        buildMessageContent p = .contactContent (c.firstname ++ " " ++ c.lastname)
          (vcardOf (c.firstname ++ " " ++ c.lastname) c.email
            (removeAllChar '+' (removeAllChar ' ' c.phone))))
    ∧ (p.media = none → p.location = none → p.poll = none → p.contact = none →
        buildMessageContent p = .textContent p.text) := by
  refine ⟨?_, ?_, ?_, ?_, ?_, ?_, ?_⟩
  · intro m q hm hq name values cnt h
    rw [buildMessageContent, hm] at h
    by_cases hc : m.type != "" && m.data != "" <;> simp [hc] at h
  · intro m hm h1 h2
    rw [buildMessageContent, hm]
    simp [h1, h2]
  · intro m hm h
    rw [buildMessageContent, hm]
    rcases h with h | h <;> simp [h]
  · intro hm l hl
    rw [buildMessageContent, hm, hl]
  · intro hm hl q hq
    obtain ⟨qn, qo, qa⟩ := q
    rw [buildMessageContent, hm, hl, hq]
    cases qa <;> rfl
  · intro hm hl hq c hc
    rw [buildMessageContent, hm, hl, hq, hc]
  · intro hm hl hq hc
    rw [buildMessageContent, hm, hl, hq, hc]

/-- C7 witness: with both a well-formed media object and a poll object
present, the content is built as media. -/
theorem content_precedence_witness :
    buildMessageContent ⟨"1", none, some ⟨"image", "QUJD", none, none, none, none, none⟩,
        none, some ⟨some "p", ["a", "b"], none⟩, none⟩ =
      .mediaContent "image" "QUJD" none none none none none := by
  have h := (content_precedence ⟨"1", none,
    some ⟨"image", "QUJD", none, none, none, none, none⟩,
    none, some ⟨some "p", ["a", "b"], none⟩, none⟩).2.1
    ⟨"image", "QUJD", none, none, none, none, none⟩ rfl (by decide) (by decide)
  rw [h]
  decide

/-- Every content object built by `buildMessageContent` is a non-empty
JS object, so the `!is.object(content)` half of the malformed-input
guard can never fire. -/
theorem isObjectContent_buildMessageContent (p : IMessage) :
    isObjectContent (buildMessageContent p) = true := by
  cases hb : buildMessageContent p <;> simp [isObjectContent, contentKeyCount]

/-- C6: a malformed send request (empty chat id, or content that is not
a non-empty object) returns the empty object without raising; when the
transmit raises a connection-closed / not-connected class of error,
`ensureConnected` is invoked once more and the send is retried exactly
one more time (given the recovery leaves a client in place), and any
failure after that retry is absorbed into an empty-object result; a
non-connection-closed transmit error is absorbed without a retry. -/
theorem send_retry (env : SendEnv) (p : IMessage) (m : String) :
    (p.chatId = "" → sendMessage env p = ⟨none, 0, 0⟩)
    ∧ (isObjectContent (buildMessageContent p) = false → sendMessage env p = ⟨none, 0, 0⟩)
    ∧ (p.chatId ≠ "" → env.hasClient = true → env.isConnected = true →
        env.hasClientAfterEnsure = true → env.first = .err m →
        isConnectionClosedError m = true →
        (sendMessage env p).ensureCalls = 1 ∧ (sendMessage env p).attempts = 2
        ∧ (∀ e2, env.second = .err e2 → (sendMessage env p).result = none)
        ∧ (∀ r, env.second = .ok r → (sendMessage env p).result = some r))
    ∧ (p.chatId ≠ "" → env.hasClient = true → env.isConnected = true →
        env.first = .err m → isConnectionClosedError m = false →
        sendMessage env p = ⟨none, 0, 1⟩) := by
  have hob := isObjectContent_buildMessageContent p
  refine ⟨?_, ?_, ?_, ?_⟩
  · intro h; simp [sendMessage, h]
  · intro h; rw [hob] at h; exact absurd h (by simp)
  · intro hne hc hic hae hf hcc
    have hb : (p.chatId != "") = true := by simp [hne]
    refine ⟨?_, ?_, ?_, ?_⟩
    · simp [sendMessage, hne, hob, hc, hic, hae, hf, hcc, hb]
      cases env.second <;> simp
    · simp [sendMessage, hne, hob, hc, hic, hae, hf, hcc, hb]
      cases env.second <;> simp
    · intro e2 hs
      simp [sendMessage, hne, hob, hc, hic, hae, hf, hcc, hb, hs]
    · intro r hs
      simp [sendMessage, hne, hob, hc, hic, hae, hf, hcc, hb, hs]
  · intro hne hc hic hf hcc
    simp [sendMessage, hne, hob, hc, hic, hf, hcc]

/-- C6 witness: a connection-closed first transmit with a failing retry
yields one recovery call, two attempts and the empty-object result. -/
theorem send_retry_witness :
    (sendMessage ⟨true, true, true, .err "Connection Closed", .err "boom"⟩
        ⟨"1", some "hi", none, none, none, none⟩).ensureCalls = 1
    ∧ (sendMessage ⟨true, true, true, .err "Connection Closed", .err "boom"⟩
        ⟨"1", some "hi", none, none, none, none⟩).attempts = 2
    ∧ (sendMessage ⟨true, true, true, .err "Connection Closed", .err "boom"⟩
        ⟨"1", some "hi", none, none, none, none⟩).result = none := by
  have h := (send_retry ⟨true, true, true, .err "Connection Closed", .err "boom"⟩
    ⟨"1", some "hi", none, none, none, none⟩ "Connection Closed").2.2.1
    (by decide) rfl rfl rfl rfl (by decide)
  exact ⟨h.1, h.2.1, h.2.2.1 "boom" rfl⟩

/-- C4: on a non-stale connection update with reconnection not
suppressed, a transient close (not logged-out, not QR-attempts-ended,
retry budget not exhausted) increments the reconnect counter by
exactly 1 and schedules a retry whose delay is the n-th entry of
[1000, 2000, 2500, 3000, 4000] ms for attempt n; a successful open
resets the counter to 0 (and cancels the pending reconnect); a
permanent failure resets the counter to 0 and marks the session
disconnected without scheduling a retry; the counter never exceeds 5,
and neither `start` nor `forceRefreshConnection` can push it above 5. -/
theorem reconnect_counter (s : WAState) (u : ConnUpdate)
    (hst : staleUpdate s u = false) :
    (u.connection = some "close" → s.suppressReconnect = false →
        shouldReconnect s u = true →
        (onConnectionUpdate s u).1.reconnectCount = s.reconnectCount + 1
        ∧ (onConnectionUpdate s u).2 =
            some ([1000, 2000, 2500, 3000, 4000].getD s.reconnectCount 4000)
        ∧ s.reconnectCount < 5)
    ∧ (u.connection = some "open" →
        (onConnectionUpdate s u).1.reconnectCount = 0
        ∧ (onConnectionUpdate s u).1.isConnected = true
        ∧ (onConnectionUpdate s u).1.reconnectTimeout = false
        ∧ (onConnectionUpdate s u).2 = none)
    ∧ (u.connection = some "close" → s.suppressReconnect = false →
        shouldReconnect s u = false →
        (onConnectionUpdate s u).1.reconnectCount = 0
        ∧ (onConnectionUpdate s u).1.isConnected = false
        ∧ (onConnectionUpdate s u).2 = none)
    ∧ (s.reconnectCount ≤ 5 → (onConnectionUpdate s u).1.reconnectCount ≤ 5)
    ∧ (start s).reconnectCount = s.reconnectCount
    ∧ ((forceRefreshConnection s).reconnectCount = 0 ∨
        (forceRefreshConnection s).reconnectCount = s.reconnectCount) := by
  refine ⟨?_, ?_, ?_, ?_, ?_⟩
  · intro hc hsup hsh
    have hlt : s.reconnectCount < 5 := by
      simp only [shouldReconnect, Bool.and_eq_true, decide_eq_true_eq] at hsh
      simpa [maxConnectionAttemps, reconnectBackoffMs] using hsh.2
    refine ⟨?_, ?_, hlt⟩
    · simp [onConnectionUpdate, hst, hc, hsup, hsh]
    · simp [onConnectionUpdate, hst, hc, hsup, hsh, reconnectBackoffMs]
  · intro ho
    by_cases hc : u.connection = some "close"
    · rw [ho] at hc; exact absurd hc (by decide)
    · simp [onConnectionUpdate, hst, hc, ho]
  · intro hc hsup hsh
    simp [onConnectionUpdate, hst, hc, hsup, hsh]
  · intro h5
    rw [onConnectionUpdate]
    split
    · exact h5
    · split
      · split
        · exact h5
        · split
          · rename_i hsh
            have hlt : s.reconnectCount < 5 := by
              simp only [shouldReconnect, Bool.and_eq_true, decide_eq_true_eq] at hsh
              simpa [maxConnectionAttemps, reconnectBackoffMs] using hsh.2
            simp
            omega
          · simp
      · split
        · simp
        · exact h5
  · constructor
    · by_cases h1 : s.refreshInProgress
      · simp [start, h1]
      · by_cases h2 : (s.isConnected && s.client.isSome) = true
        · simp [start, h1, h2]
        · by_cases h3 : (s.client.isSome && !s.isConnected) = true
          · simp [start, h1, h2, h3, safeCloseClient]
            split <;> rfl
          · simp [start, h1, h2, h3]
    · by_cases h1 : s.client.isNone
      · right; simp [forceRefreshConnection, h1]
      · by_cases h2 : s.refreshInProgress
        · right; simp [forceRefreshConnection, h1, h2]
        · left
          simp [forceRefreshConnection, h1, h2, start, safeCloseClient]

/-- C4 witness: a transient close at attempt counter 2 increments to 3
and schedules the third backoff entry, 2500 ms. -/
theorem reconnect_counter_witness :
    (onConnectionUpdate ⟨some 1, false, 2, false, false, false, 1, some 1⟩
        ⟨some 1, some "close", some 428, "Connection Closed", none⟩).1.reconnectCount = 3
    ∧ (onConnectionUpdate ⟨some 1, false, 2, false, false, false, 1, some 1⟩
        ⟨some 1, some "close", some 428, "Connection Closed", none⟩).2 = some 2500 := by
  have h := (reconnect_counter ⟨some 1, false, 2, false, false, false, 1, some 1⟩
    ⟨some 1, some "close", some 428, "Connection Closed", none⟩ (by decide)).1
    rfl rfl (by decide)
  exact ⟨h.1, h.2.1⟩

/-- A plain text message body used by concrete batch scenarios. -/
def helloBody : MsgBody :=
  ⟨some "hello", none, none, none, none, none, none, none, none⟩

/-- A plain inbound text message that passes every filter. -/
def plainMsg : InMsg := ⟨some helloBody, "1@s.whatsapp.net", "", "G1", false, .undef⟩

/-- An inbound message of broadcast origin. -/
def broadcastMsg : InMsg := ⟨some helloBody, "123@broadcast", "", "B1", false, .undef⟩

/-- C1 counterexample: in the batch [broadcast message, plain message]
nothing at all is dispatched — the broadcast message makes the handler
`return`, so the later plain message is not processed — although the
plain message alone is dispatched. -/
theorem batch_abort_counterexample :
    onMessageUpsert ["http://hook"] [] 0 [broadcastMsg, plainMsg] = []
    ∧ onMessageUpsert ["http://hook"] [] 0 [plainMsg] =
        [.textPayload "1@s.whatsapp.net" "hello" none]
    ∧ classifyMessage [] 0 broadcastMsg = .abortBatch := by
  refine ⟨by decide, by decide, by decide⟩

/-- C1 (amended): a message that fails the self-origin, authorization,
staleness or supported-type filter (or has no body) is skipped and
every later message in the batch is still processed; but a message of
broadcast, status-broadcast or newsletter origin with a body aborts the
remainder of the batch: no later message is filtered or dispatched.  A
message classified for dispatch contributes its payload in order. -/
theorem batch_filter_semantics (auth : List String) (now : Int) (m : InMsg)
    (rest : List InMsg) :
    (classifyMessage auth now m = .skip →
        processBatch auth now (m :: rest) = processBatch auth now rest)
    ∧ (∀ b, m.body = some b →
        (isJidStatusBroadcast m.remoteJid || isJidNewsletter m.remoteJid ||
          isJidBroadcast m.remoteJid) = true →
        processBatch auth now (m :: rest) = [])
    ∧ (m.body = none → classifyMessage auth now m = .skip)
    ∧ (∀ b, m.body = some b →
        (isJidStatusBroadcast m.remoteJid || isJidNewsletter m.remoteJid ||
          isJidBroadcast m.remoteJid) = false →
        m.fromMe = true → classifyMessage auth now m = .skip)
    ∧ (∀ b, m.body = some b →
        (isJidStatusBroadcast m.remoteJid || isJidNewsletter m.remoteJid ||
          isJidBroadcast m.remoteJid) = false →
        m.fromMe = false → isAuthorizedMessage auth m = false →
        classifyMessage auth now m = .skip)
    ∧ (∀ b, m.body = some b →
        (isJidStatusBroadcast m.remoteJid || isJidNewsletter m.remoteJid ||
          isJidBroadcast m.remoteJid) = false →
        m.fromMe = false → isAuthorizedMessage auth m = true →
        isMessageOlderThanMaxAge now m.messageTimestamp = true →
        classifyMessage auth now m = .skip)
    ∧ (∀ p, classifyMessage auth now m = .dispatch p →
        processBatch auth now (m :: rest) = p :: processBatch auth now rest) := by
  refine ⟨?_, ?_, ?_, ?_, ?_, ?_, ?_⟩
  · intro h; simp [processBatch, h]
  · intro b hb hbc
    have h : classifyMessage auth now m = .abortBatch := by
      simp [classifyMessage, hb, hbc]
    simp [processBatch, h]
  · intro h; simp [classifyMessage, h]
  · intro b hb hbc hf
    simp [classifyMessage, hb, hbc, hf]
  · intro b hb hbc hf ha
    simp [classifyMessage, hb, hbc, hf, ha]
  · intro b hb hbc hf ha hs
    simp [classifyMessage, hb, hbc, hf, ha, hs]
  · intro p h; simp [processBatch, h]

/-- C1 witness: with the broadcast message last, the plain message is
dispatched and the broadcast message aborts only the (empty) tail. -/
theorem batch_filter_semantics_witness :
    processBatch [] 0 [plainMsg, broadcastMsg] =
      [.textPayload "1@s.whatsapp.net" "hello" none] := by
  have h := (batch_filter_semantics [] 0 plainMsg [broadcastMsg]).2.2.2.2.2.2
    (.textPayload "1@s.whatsapp.net" "hello" none) (by decide)
  rw [h]
  decide

/-- A session state whose current transport handle is generation 2. -/
def gen2State : WAState := ⟨some 2, true, 0, false, false, false, 2, some 2⟩

/-- C3 counterexample: a message batch delivered by the superseded
generation-1 handle, while the session's current handle is generation 2,
is still fully processed and dispatched to the webhooks — stale message
batches are not discarded. -/
theorem stale_generation_counterexample :
    eventOrigin (WAEvent.messageBatch 1 [plainMsg]) = some 1
    ∧ gen2State.currentClientId = some 2
    ∧ (dispatchEvent gen2State 0 [] ["http://hook"] (.messageBatch 1 [plainMsg])).dispatched
        = [.textPayload "1@s.whatsapp.net" "hello" none] := by
  refine ⟨by decide, by decide, by decide⟩

/-- C3 (amended): only connection-state-change events are generation
checked — such an event is discarded (no state change, no reconnect
scheduled, nothing dispatched) exactly when it carries a generation id,
the session has a current id, and the two differ; message-batch and
call events are processed identically whatever generation delivered
them, because their handlers receive no generation information. -/
theorem stale_generation_scope (s : WAState) (now : Int) (auth webhooks : List String)
    (u : ConnUpdate) (g g' : Nat) (msgs : List InMsg) (go : Nat) :
    (u.clientId = some g → s.currentClientId = some g' → g ≠ g' →
        dispatchEvent s now auth webhooks (.connUpdate u) = ⟨s, none, [], false⟩)
    ∧ (∀ g2, dispatchEvent s now auth webhooks (.messageBatch go msgs)
        = dispatchEvent s now auth webhooks (.messageBatch g2 msgs))
    ∧ (∀ g2, dispatchEvent s now auth webhooks (.callEvent go)
        = dispatchEvent s now auth webhooks (.callEvent g2)) := by
  refine ⟨?_, ?_, ?_⟩
  · intro h1 h2 h3
    have hst : staleUpdate s u = true := by
      simp [staleUpdate, h1, h2, h3]
    simp [dispatchEvent, onConnectionUpdate, hst]
  · intro g2; rfl
  · intro g2; rfl

/-- C3 witness: a stale connection update (generation 1 against current
generation 2) is discarded without any observable effect. -/
theorem stale_generation_scope_witness :
    dispatchEvent gen2State 0 [] ["http://hook"]
        (.connUpdate ⟨some 1, some "close", some 428, "Connection Closed", none⟩)
      = ⟨gen2State, none, [], false⟩ := by
  exact (stale_generation_scope gen2State 0 [] ["http://hook"]
    ⟨some 1, some "close", some 428, "Connection Closed", none⟩ 1 2 [] 0).1
    rfl rfl (by decide)

/-- C2: evaluated at a healthy connected session (one live handle,
generation 1), a forced refresh closes the handle and clears both the
suppression and refresh-in-progress flags, but the `start()` it invokes
returns without effect — `refreshInProgress` is still set when the
`finally` block awaits it — so no new transport handle is created
(`clientCounter` stays 1, `client` is `none`): the session is left with
no connection, contradicting the documented forced-refresh restart.
The second conjunct isolates the mechanism: `start` is the identity on
any state whose refresh flag is set. -/
theorem forced_refresh_no_restart :
    forceRefreshConnection ⟨some 1, true, 0, false, false, false, 1, some 1⟩
      = ⟨none, false, 0, false, false, false, 1, none⟩
    ∧ start ⟨none, false, 0, false, false, true, 1, none⟩
      = ⟨none, false, 0, false, false, true, 1, none⟩
    ∧ (forceRefreshConnection ⟨some 1, true, 0, false, false, false, 1, some 1⟩).clientCounter
      = 1
    ∧ (forceRefreshConnection ⟨some 1, true, 0, false, false, false, 1, some 1⟩).client
      = none := by
  refine ⟨by decide, by decide, by decide, by decide⟩

end WhatsAppRest
